import Mathlib

/-!
Verification of the audio reference resolution and playlist assembly engine
of the news_subscribe_aws_api repository, shallowly embedded in Lean.

Python strings are modelled as Lean `String`; the Python string operations
used by the code (slicing, `startswith`, `in`, `split`, `os.path.basename`,
`os.path.join`, `rstrip`) are given executable models below, faithful to
CPython semantics for the inputs the code passes them.
-/

/-- Python `s.startswith(p)`: `p` is a prefix of `s`. -/
def pyStartsWith (p s : String) : Bool := p.data.isPrefixOf s.data

/-- Python slicing `s[n:]` (by code points). -/
def pyDrop (n : Nat) (s : String) : String := String.mk (s.data.drop n)

/-- Python `sub in s` on character lists: some suffix of `s` has `sub` as prefix. -/
def pyInB (sub : List Char) : List Char → Bool
  | [] => sub.isPrefixOf []
  | c :: rest => sub.isPrefixOf (c :: rest) || pyInB sub rest

/-- Python substring test `sub in s`. -/
def pyIn (sub s : String) : Bool := pyInB sub.data s.data

/-- Python `s.split(sep)` on character lists, fuel-indexed so that the
recursion is structural (the fuel is always at least the length of the
string, and each step consumes at least one character). Matches CPython:
scan left to right, each non-overlapping occurrence of `sep` closes the
current part; an empty separator never matches (the callers never pass one). -/
def pySplitFuel (sep : List Char) : Nat → List Char → List (List Char)
  | _, [] => [[]]
  | 0, s => [s]
  | fuel + 1, c :: rest =>
    if sep ≠ [] ∧ sep.isPrefixOf (c :: rest) then
      [] :: pySplitFuel sep fuel (List.drop (sep.length - 1) rest)
    else
      match pySplitFuel sep fuel rest with
      | [] => [[c]]
      | h :: t => (c :: h) :: t

/-- Python `s.split(sep)` on character lists. -/
def listPySplit (sep s : List Char) : List (List Char) := pySplitFuel sep s.length s

/-- Python `s.split(sep)` on strings. -/
def pySplitStr (sep s : String) : List String :=
  (listPySplit sep.data s.data).map (fun l => String.mk l)

/-- Python `xs[-1]` on a list produced by `split` (always non-empty). -/
def pyLast (l : List String) : String := l.getLastD ""

/-- Python `os.path.basename(s)` (POSIX): the part after the last slash. -/
def pyBasename (s : String) : String :=
  String.mk ((s.data.reverse.takeWhile (fun c => c != '/')).reverse)

/-- Python `s.rstrip('/')`. -/
def pyRstripSlash (s : String) : String :=
  String.mk ((s.data.reverse.dropWhile (fun c => c == '/')).reverse)

/-- Python `os.path.join(a, b)` (POSIX, two components): `b` absolute wins. -/
def pyJoin (a b : String) : String :=
  if pyStartsWith "/" b then b else a ++ "/" ++ b

example : pySplitStr "/" "http://evil/x.mp3" = ["http:", "", "evil", "x.mp3"] := by decide
example : pyBasename "a/b/c.mp3" = "c.mp3" := by decide
example : pyJoin "data" "x.mp3" = "data/x.mp3" := by decide
example : (("ab" : String) ++ "cd").data = "ab".data ++ "cd".data := rfl
example : String.mk ("ab".data) = "ab" := rfl

/-!
Playlist assembler: `create_playlist` in `local_server.py` (lines 173-223).
An episode's metadata dictionary is modelled by `Episode`; a missing key or a
falsy (None / empty string) value of an `*_audio_url` entry is an `Option
String` that is `none` or `some ""`. The transition reference at the boundary
after article `i` (0-based), stored under the dictionary key
`transition_{i+1}_{i+2}_audio_url`, is modelled by `transitions i`.
-/

inductive SegmentType
  | intro
  | article_intro
  | article
  | transition
  | outro
deriving DecidableEq

/-- One playlist item. Items the source emits without an `article_id` key get
`none`. -/
structure Segment where
  type : SegmentType
  article_id : Option String
  audio_url : String
deriving DecidableEq

structure Article where
  id : String
  intro_audio_url : Option String
  audio_url : Option String

structure Episode where
  intro_audio_url : Option String
  outro_audio_url : Option String
  articles : List Article
  transitions : Nat → Option String

/-- Python truthiness of an optional audio-url entry: present and non-empty. -/
def truthy : Option String → Bool
  | none => false
  | some s => s != ""

/-- The conditional append the source performs for each reference:
emit one segment when the entry is present and truthy, else nothing. -/
def optList (t : SegmentType) (aid : Option String) (r : Option String) : List Segment :=
  match r with
  | none => []
  | some s => if s = "" then [] else [⟨t, aid, s⟩]

/-- The per-article loop of `create_playlist` (`local_server.py` 185-214):
article intro, article body, then — except after the last article — the
transition at this boundary. `n` is `len(articles)`, `i` the running index. -/
def article_segs (trans : Nat → Option String) (n : Nat) : Nat → List Article → List Segment
  | _, [] => []
  | i, a :: rest =>
    optList .article_intro (some a.id) a.intro_audio_url ++
    optList .article (some a.id) a.audio_url ++
    (if i < n - 1 then optList .transition none (trans i) else []) ++
    article_segs trans n (i + 1) rest

/-- `create_playlist` (`local_server.py` 173-223): intro, the article loop,
then outro. -/
def create_playlist (e : Episode) : List Segment :=
  optList .intro none e.intro_audio_url ++
  article_segs e.transitions e.articles.length 0 e.articles ++
  optList .outro none e.outro_audio_url

/-!
S3 resolution pipeline: `src/audio_proxy.py` and `src/config.py`.

The S3 store is an external collaborator and is modelled as an oracle
`probe : String → S3Outcome` describing, per candidate key, what the pair
`head_object` / `generate_presigned_url` does. `boto3` raises `ClientError`
for error responses from the store (404 not-found, but also 403 and 5xx
availability errors); connection-level failures raise other exception types,
which line 78 of `audio_proxy.py` (`except ClientError`) does not catch.
Propagating Python exceptions are modelled by `Except Unit`.

`list(set(xs))` (audio_proxy.py line 59) returns the distinct elements of
`xs` in an unspecified, hash-dependent order; it is modelled by a parameter
`ded : List String → List String` about which theorems assume only what the
Python semantics guarantees (`IsPySetList`).
-/

inductive S3Outcome
  | ok (url : String)
  | signErr
  | headClientErr (code : String)
  | headConnErr
deriving DecidableEq

/-- What `list(set(pre))` guarantees about its result: duplicate-free and the
same elements, in some unspecified order. -/
def IsPySetList (pre ded : List String) : Prop :=
  ded.Nodup ∧ (∀ x ∈ pre, x ∈ ded) ∧ (∀ x ∈ ded, x ∈ pre)

instance (pre ded : List String) : Decidable (IsPySetList pre ded) := by
  unfold IsPySetList; infer_instance

/-- One concrete admissible order of `list(set(l))`. -/
def pySetDedup (l : List String) : List String := l.dedup

/-- Key cleaning at the top of `generate_presigned_url`
(`audio_proxy.py` 33-41): strip a `/audio/` or `audio/` prefix, then, if an
embedded scheme remains, keep only the final path component. -/
def clean_audio_key (k : String) : String :=
  let k1 := if pyStartsWith "/audio/" k then pyDrop 7 k
            else if pyStartsWith "audio/" k then pyDrop 6 k
            else k
  if pyIn "https://" k1 || pyIn "http://" k1 then pyLast (pySplitStr "/" k1) else k1

/-- The candidate key list (`audio_proxy.py` 44-56), in source order, before
`list(set(...))`. The same list is built at lines 150-162 for the proxy's
`get_object` loop. -/
def s3_keys_to_try (k : String) : List String :=
  [k,
   "audio/" ++ k,
   "data/audio/" ++ k,
   "narration/" ++ k,
   "data/narration/" ++ k,
   pyJoin "data" k,
   pyJoin "audio" (pyBasename k),
   pyJoin "data/audio" (pyBasename k),
   pyJoin "narration" (pyBasename k),
   pyJoin "data/narration" (pyBasename k)]

/-- The probing loop of `generate_presigned_url` (`audio_proxy.py` 62-84):
head the object, presign on success, `continue` on `ClientError` (whether the
object was absent or the store answered with an availability error), `None`
when the candidates are exhausted. A non-`ClientError` connection failure is
not caught and propagates. -/
def presign_loop (probe : String → S3Outcome) : List String → Except Unit (Option String)
  | [] => .ok none
  | k :: rest =>
    match probe k with
    | .ok url => .ok (some url)
    | .signErr => presign_loop probe rest
    | .headClientErr _ => presign_loop probe rest
    | .headConnErr => .error ()

/-- `generate_presigned_url` (`audio_proxy.py` 20-84) in Lambda mode. -/
def generate_presigned_url (probe : String → S3Outcome) (ded : List String → List String)
    (audio_key : String) : Except Unit (Option String) :=
  presign_loop probe (ded (s3_keys_to_try (clean_audio_key audio_key)))

/-- The legacy API-path fallback of `build_audio_url`
(`config.py` 142-164), used when presigning produced no URL. -/
def fallback_audio_url (domain audio_key : String) : String :=
  let p := if pyStartsWith "/" audio_key then pyDrop 1 audio_key else audio_key
  let p2 := if pyStartsWith "audio/" p then p else "audio/" ++ p
  if domain = "" then p2 else pyRstripSlash domain ++ "/" ++ p2

/-- The development-mode branch of `build_audio_url` (`config.py` 182-193):
host `127.0.0.1`, port `5001`. -/
def local_audio_url (audio_key : String) : String :=
  let filename := if pyStartsWith "/audio/" audio_key then pyDrop 7 audio_key
                  else if pyStartsWith "audio/" audio_key then pyDrop 6 audio_key
                  else pyBasename audio_key
  "http://127.0.0.1:5001/audio/" ++ filename

/-- `build_audio_url` (`config.py` 105-193). Empty key → `None`; a key that is
already a full URL is returned unchanged; in Lambda mode presign with the
API-path fallback; in development mode build the local URL. -/
def build_audio_url (is_lambda : Bool) (domain : String) (ded : List String → List String)
    (probe : String → S3Outcome) (audio_key : String) : Except Unit (Option String) :=
  if audio_key = "" then .ok none
  else if pyStartsWith "https://" audio_key || pyStartsWith "http://" audio_key then
    .ok (some audio_key)
  else if is_lambda then do
    let pres ← generate_presigned_url probe ded audio_key
    match pres with
    | some url => .ok (some url)
    | none => .ok (some (fallback_audio_url domain audio_key))
  else
    .ok (some (local_audio_url audio_key))

/-!
`get_playlist` in `src/api_handler.py` (lines 320-456), Lambda branch.
-/

/-- The already-signed test of `get_playlist` (`api_handler.py` 352-355). -/
def is_signed_url (u : String) : Bool :=
  (pyStartsWith "https://" u && pyIn "X-Amz-Signature=" u) ||
  (pyStartsWith "http://" u && pyIn "X-Amz-Signature=" u)

/-- Key extraction of `get_playlist` (`api_handler.py` 360-388): strip
`/audio/` (recovering by basename if a full URL remains), else split a full
URL on `<bucket>.s3.amazonaws.com/` when that marker occurs (taking the part
after its last occurrence) or take the final path component, else use the
value as-is. The same `split(f"{S3_BUCKET}.s3.amazonaws.com/")[-1]`
extraction appears at `api_handler.py` 117-118. -/
def get_playlist_audio_key (bucket url : String) : String :=
  if pyStartsWith "/audio/" url then
    let k := pyDrop 7 url
    if pyStartsWith "http://" k || pyStartsWith "https://" k then
      pyLast (pySplitStr "/" k)
    else k
  else if pyStartsWith "https://" url || pyStartsWith "http://" url then
    if pyIn (bucket ++ ".s3.amazonaws.com/") url then
      pyLast (pySplitStr (bucket ++ ".s3.amazonaws.com/") url)
    else
      pyLast (pySplitStr "/" url)
  else url

/-- The post-conversion check of `get_playlist` (`api_handler.py` 396-404):
if the produced URL still embeds `/audio/http`, rebuild from the trailing
filename. -/
def final_check (domain : String) (ded : List String → List String)
    (probe : String → S3Outcome) : Option String → Except Unit (Option String)
  | none => .ok none
  | some s =>
    if pyIn "/audio/http" s then
      let parts := pySplitStr "/audio/" s
      if parts.length > 1 &&
          (pyStartsWith "http://" (parts.getD 1 "") || pyStartsWith "https://" (parts.getD 1 "")) then
        build_audio_url true domain ded probe (pyLast (pySplitStr "/" (parts.getD 1 "")))
      else .ok (some s)
    else .ok (some s)

/-- Conversion of one playlist item's `audio_url` (`api_handler.py` 344-404):
missing/falsy values are left alone, already-signed URLs are skipped
(`continue`), otherwise extract a key, build a URL, and run the final check. -/
def transform_item (bucket domain : String) (ded : List String → List String)
    (probe : String → S3Outcome) : Option String → Except Unit (Option String)
  | none => .ok none
  | some u =>
    if u = "" then .ok (some "")
    else if is_signed_url u then .ok (some u)
    else do
      let newUrl ← build_audio_url true domain ded probe (get_playlist_audio_key bucket u)
      final_check domain ded probe newUrl

/-- The sequential for-loop over the playlist items; a propagating exception
aborts the whole conversion. -/
def convert_items (f : Option String → Except Unit (Option String)) :
    List (Option String) → Except Unit (List (Option String))
  | [] => .ok []
  | x :: xs => do
    let y ← f x
    let ys ← convert_items f xs
    .ok (y :: ys)

/-- Outcome of fetching the metadata file: a `ClientError` /
`FileNotFoundError`, a metadata object without a `playlist` key, or the
playlist items (each item reduced to its optional `audio_url` value). -/
inductive MetaFetch
  | fetchErr
  | noPlaylist
  | withPlaylist (items : List (Option String))

structure GpResponse where
  statusCode : Nat
  playlist : Option (List (Option String))
deriving DecidableEq

/-- `get_playlist` (`api_handler.py` 320-456), Lambda branch: 404 when the
metadata is missing, 500 when an exception escapes the conversion
(`api_handler.py` 442-444), otherwise 200 with the (converted) playlist, or
200 with an empty playlist when the metadata has none. -/
def get_playlist (bucket domain : String) (ded : List String → List String)
    (probe : String → S3Outcome) (m : MetaFetch) : GpResponse :=
  match m with
  | .fetchErr => ⟨404, none⟩
  | .noPlaylist => ⟨200, some []⟩
  | .withPlaylist items =>
    match convert_items (transform_item bucket domain ded probe) items with
    | .error _ => ⟨500, none⟩
    | .ok items2 => ⟨200, some items2⟩

/-!
Audio proxy handler: `lambda_handler` in `src/audio_proxy.py` (lines 87-273),
Lambda branch. The handler's `get_object` probes are an oracle; the value
returned pairs the HTTP status code with the list of S3 keys actually probed.
`urllib.parse.unquote` is an external collaborator, passed in as `unquoteF`.
-/

inductive GetOutcome
  | ok (body : String)
  | clientErr (code : String)
deriving DecidableEq

/-- The `get_object` loop (`audio_proxy.py` 170-202) plus the
`file_content` checks (194-202, 243-248): first successful key wins (404 if
its body is empty), otherwise 404/500 from the last `ClientError`'s code. -/
def get_object_loop (probe : String → GetOutcome) :
    List String → List String → Option String → Nat × List String
  | [], tried, lastE =>
    (match lastE with
     | some code => if code = "NoSuchKey" then 404 else 500
     | none => 404,
     tried)
  | k :: rest, tried, _ =>
    match probe k with
    | .ok body => (if body = "" then 404 else 200, tried ++ [k])
    | .clientErr code => get_object_loop probe rest (tried ++ [k]) (some code)

/-- `lambda_handler` (`audio_proxy.py` 87-273), Lambda branch, applied to the
extracted `file_path` path parameter. Validation (line 113) precedes the
prefix cleaning, URL decoding, scheme recovery and every store access. -/
def lambda_handler (unquoteF : String → String) (probe : String → GetOutcome)
    (ded : List String → List String) (file_path : String) : Nat × List String :=
  if file_path = "" || pyIn ".." file_path then (400, [])
  else
    let f1 := if pyStartsWith "/audio/" file_path then pyDrop 7 file_path
              else if pyStartsWith "audio/" file_path then pyDrop 6 file_path
              else file_path
    let f2 := if pyIn "%" f1 then unquoteF f1 else f1
    let f3 := if pyIn "https://" f2 || pyIn "http://" f2 then pyLast (pySplitStr "/" f2) else f2
    get_object_loop probe (ded (s3_keys_to_try f3)) [] none

/-- The first successful probe's URL, if any (used to state what the
candidate loop computes). -/
def outcomeUrl : S3Outcome → Option String
  | .ok url => some url
  | _ => none

/-!
Concrete instances used by witnesses and counterexamples.
-/

/-- Concrete episode for the C1 witness. -/
def c1Episode : Episode :=
  { intro_audio_url := some "intro.mp3"
    outro_audio_url := some "outro.mp3"
    articles := [⟨"a1", some "a1i.mp3", some "a1.mp3"⟩,
                 ⟨"a2", none, some "a2.mp3"⟩,
                 ⟨"a3", some "a3i.mp3", none⟩]
    transitions := fun i => if i = 0 then some "t12.mp3" else none }

/-- A store in which both the bare key `ep1.mp3` and `audio/ep1.mp3` exist
and sign successfully; every other candidate is absent. -/
def probeC4 : String → S3Outcome := fun k =>
  if k = "ep1.mp3" then .ok "signed:ep1.mp3"
  else if k = "audio/ep1.mp3" then .ok "signed:audio/ep1.mp3"
  else .headClientErr "404"

/-- A legal iteration order of `set(s3_keys_to_try "ep1.mp3")` in which
`audio/ep1.mp3` precedes the as-is key `ep1.mp3` (CPython string hashing is
seeded per process, so the order of `list(set(...))` is unspecified). -/
def c4_bad_order : List String :=
  ["audio/ep1.mp3", "ep1.mp3", "data/audio/ep1.mp3", "narration/ep1.mp3",
   "data/narration/ep1.mp3", "data/ep1.mp3"]

/-!
Helper lemmas.
-/

lemma optList_of_not_truthy (t : SegmentType) (aid : Option String) (r : Option String)
    (h : truthy r = false) : optList t aid r = [] := by
  cases r with
  | none => rfl
  | some s =>
    have hs : s = "" := by simpa [truthy] using h
    simp [optList, hs]

lemma optList_some (t : SegmentType) (aid : Option String) (s : String) :
    optList t aid (some s) = if s = "" then [] else [⟨t, aid, s⟩] := rfl

/-!
Claim C1: playlist segment order for a three-article episode.
-/

/-- C1. For an episode whose metadata provides a (non-empty) intro reference,
outro reference, articles A, B, C in order, and a (non-empty) transition
reference only at the A-B boundary, `create_playlist` emits exactly: intro,
A-intro?, A?, transition(A-B), B-intro?, B?, C-intro?, C?, outro — every
optional article segment present iff its reference is present and non-empty,
and no transition segment between B and C or after C. -/
theorem c1_playlist_order (e : Episode) (a b c : Article) (si st so : String)
    (ha : e.articles = [a, b, c])
    (hi : e.intro_audio_url = some si) (hi2 : si ≠ "")
    (ho : e.outro_audio_url = some so) (ho2 : so ≠ "")
    (ht : e.transitions 0 = some st) (ht2 : st ≠ "")
    (ht1 : truthy (e.transitions 1) = false) :
    create_playlist e =
      [⟨.intro, none, si⟩] ++
      optList .article_intro (some a.id) a.intro_audio_url ++
      optList .article (some a.id) a.audio_url ++
      [⟨.transition, none, st⟩] ++
      optList .article_intro (some b.id) b.intro_audio_url ++
      optList .article (some b.id) b.audio_url ++
      optList .article_intro (some c.id) c.intro_audio_url ++
      optList .article (some c.id) c.audio_url ++
      [⟨.outro, none, so⟩] := by
  have htn : optList .transition none (e.transitions 1) = [] :=
    optList_of_not_truthy _ _ _ ht1
  simp [create_playlist, article_segs, ha, hi, ho, ht, htn, optList_some, hi2, ho2, ht2]

theorem c1_playlist_order_witness :
    create_playlist c1Episode =
      [⟨.intro, none, "intro.mp3"⟩] ++
      optList .article_intro (some "a1") (some "a1i.mp3") ++
      optList .article (some "a1") (some "a1.mp3") ++
      [⟨.transition, none, "t12.mp3"⟩] ++
      optList .article_intro (some "a2") none ++
      optList .article (some "a2") (some "a2.mp3") ++
      optList .article_intro (some "a3") (some "a3i.mp3") ++
      optList .article (some "a3") none ++
      [⟨.outro, none, "outro.mp3"⟩] :=
  c1_playlist_order c1Episode ⟨"a1", some "a1i.mp3", some "a1.mp3"⟩
    ⟨"a2", none, some "a2.mp3"⟩ ⟨"a3", some "a3i.mp3", none⟩
    "intro.mp3" "t12.mp3" "outro.mp3" rfl rfl (by decide) rfl (by decide) rfl (by decide) (by decide)

/-!
Claim C2: already-signed URLs pass through the pipeline unchanged.
-/

/-- C2. A reference that starts with `http://` or `https://` and contains
`X-Amz-Signature=` is returned unchanged both by the playlist item conversion
(`get_playlist`, the `continue` at line 357) and by `build_audio_url`
(`config.py` 122-125): building a URL from an already-signed URL is a no-op. -/
theorem c2_signed_url_noop (bucket domain : String) (ded : List String → List String)
    (probe : String → S3Outcome) (u : String)
    (h1 : pyStartsWith "https://" u = true ∨ pyStartsWith "http://" u = true)
    (h2 : pyIn "X-Amz-Signature=" u = true) :
    transform_item bucket domain ded probe (some u) = .ok (some u) ∧
    build_audio_url true domain ded probe u = .ok (some u) := by
  have hne : u ≠ "" := by
    rintro rfl
    rcases h1 with h | h <;> exact absurd h (by decide)
  have hsig : is_signed_url u = true := by
    rcases h1 with h | h <;> simp [is_signed_url, h, h2]
  have hurl : (pyStartsWith "https://" u || pyStartsWith "http://" u) = true := by
    rcases h1 with h | h <;> simp [h]
  constructor
  · simp [transform_item, hne, hsig]
  · simp [build_audio_url, hne, hurl]

theorem c2_signed_url_noop_witness :
    transform_item "x" "" pySetDedup (fun _ => S3Outcome.signErr)
        (some "https://x.s3.amazonaws.com/a.mp3?X-Amz-Signature=abc123") =
      .ok (some "https://x.s3.amazonaws.com/a.mp3?X-Amz-Signature=abc123") ∧
    build_audio_url true "" pySetDedup (fun _ => S3Outcome.signErr)
        "https://x.s3.amazonaws.com/a.mp3?X-Amz-Signature=abc123" =
      .ok (some "https://x.s3.amazonaws.com/a.mp3?X-Amz-Signature=abc123") :=
  c2_signed_url_noop "x" "" pySetDedup (fun _ => S3Outcome.signErr)
    "https://x.s3.amazonaws.com/a.mp3?X-Amz-Signature=abc123"
    (Or.inl (by decide)) (by decide)

/-!
Claim C7: malformed double-wrapped reference.
-/

/-- C7. Normalizing the malformed raw reference `/audio/http://evil/x.mp3`
(`api_handler.py` 362-370) recovers without raising and yields the canonical
key `x.mp3`, the final path component after the embedded scheme. -/
theorem c7_double_wrap_recovery :
    get_playlist_audio_key "news-audio-files-kenchang198-dev" "/audio/http://evil/x.mp3" =
      "x.mp3" := by decide

/-!
Claim C5: S3-URL normalization and candidate membership for
`data/audio/ep1.mp3` under `S3_BUCKET = "x"`.
-/

/-- C5 counterexample. The normalization part of the claim holds
(`https://x.s3.amazonaws.com/data/audio/ep1.mp3` yields canonical key
`data/audio/ep1.mp3`), but the candidate list generated for that key does NOT
contain the bare basename `ep1.mp3`: `audio_proxy.py` 44-56 only prepends
prefixes to the key and to its basename; the basename alone is never a
candidate. -/
theorem c5_counterexample :
    get_playlist_audio_key "x" "https://x.s3.amazonaws.com/data/audio/ep1.mp3" =
      "data/audio/ep1.mp3" ∧
    "ep1.mp3" ∉ s3_keys_to_try (clean_audio_key "data/audio/ep1.mp3") := by decide

/-- C5 as amended: normalization yields `data/audio/ep1.mp3`, and the
candidate list contains `data/audio/ep1.mp3` (the key as-is) and the
basename variant `audio/ep1.mp3` — but not the bare basename `ep1.mp3`. -/
theorem c5_amended :
    get_playlist_audio_key "x" "https://x.s3.amazonaws.com/data/audio/ep1.mp3" =
      "data/audio/ep1.mp3" ∧
    "data/audio/ep1.mp3" ∈ s3_keys_to_try (clean_audio_key "data/audio/ep1.mp3") ∧
    "audio/ep1.mp3" ∈ s3_keys_to_try (clean_audio_key "data/audio/ep1.mp3") ∧
    "ep1.mp3" ∉ s3_keys_to_try (clean_audio_key "data/audio/ep1.mp3") := by decide

/-!
Claim C9: development-mode URLs and key directory structure.
-/

lemma pyBasename_no_slash (s : String) : ∀ c ∈ (pyBasename s).data, c ≠ '/' := by
  intro c hc
  have hc2 : c ∈ s.data.reverse.takeWhile (fun c => c != '/') := by
    have hd : (pyBasename s).data = (s.data.reverse.takeWhile (fun c => c != '/')).reverse := rfl
    rw [hd] at hc
    exact List.mem_reverse.mp hc
  have := List.mem_takeWhile_imp hc2
  simpa using this

/-- C9 counterexample. In development mode, for the resolved key
`/audio/narration/file.mp3` the builder strips the `/audio/` prefix and keeps
the rest verbatim (`config.py` 184-185), so the returned URL embeds the
`narration/` directory and is not of the claimed basename-only form. -/
theorem c9_counterexample :
    build_audio_url false "" pySetDedup (fun _ => S3Outcome.signErr) "/audio/narration/file.mp3" =
      .ok (some "http://127.0.0.1:5001/audio/narration/file.mp3") ∧
    "http://127.0.0.1:5001/audio/narration/file.mp3" ≠
      "http://127.0.0.1:5001/audio/" ++ pyBasename "/audio/narration/file.mp3" := by
  exact ⟨rfl, by decide⟩

/-- C9 as amended: the basename is used only for resolved keys that do not
start with `/audio/` or `audio/` (for those, the prefix remainder — possibly
containing directories — is used instead). For every other non-URL key the
development-mode URL is `http://127.0.0.1:5001/audio/<basename>`, and that
basename contains no slash, so no directory structure appears. -/
theorem c9_amended (domain : String) (ded : List String → List String)
    (probe : String → S3Outcome) (k : String)
    (h0 : k ≠ "") (h1 : pyStartsWith "https://" k = false) (h2 : pyStartsWith "http://" k = false)
    (h3 : pyStartsWith "/audio/" k = false) (h4 : pyStartsWith "audio/" k = false) :
    build_audio_url false domain ded probe k =
      .ok (some ("http://127.0.0.1:5001/audio/" ++ pyBasename k)) ∧
    ∀ c ∈ (pyBasename k).data, c ≠ '/' := by
  refine ⟨?_, pyBasename_no_slash k⟩
  simp [build_audio_url, h0, h1, h2, local_audio_url, h3, h4]

theorem c9_amended_witness :
    build_audio_url false "" pySetDedup (fun _ => S3Outcome.signErr) "narration/file.mp3" =
      .ok (some ("http://127.0.0.1:5001/audio/" ++ pyBasename "narration/file.mp3")) ∧
    ∀ c ∈ (pyBasename "narration/file.mp3").data, c ≠ '/' :=
  c9_amended "" pySetDedup (fun _ => S3Outcome.signErr) "narration/file.mp3"
    (by decide) (by decide) (by decide) (by decide) (by decide)

/-!
Claim C10: path-traversal inputs are rejected before any store access.
-/

/-- C10. A request whose extracted file path is empty or contains `..` is
answered with status 400 by the audio proxy handler (`audio_proxy.py` 113-118)
and no backing-store probe is performed (the probed-key list is empty). -/
theorem c10_path_validation (unquoteF : String → String) (probe : String → GetOutcome)
    (ded : List String → List String) (file_path : String)
    (h : file_path = "" ∨ pyIn ".." file_path = true) :
    lambda_handler unquoteF probe ded file_path = (400, []) := by
  rcases h with h | h <;> simp [lambda_handler, h]

theorem c10_path_validation_witness :
    lambda_handler (fun s => s) (fun _ => GetOutcome.clientErr "NoSuchKey") pySetDedup
      "../../etc/passwd" = (400, []) :=
  c10_path_validation (fun s => s) (fun _ => GetOutcome.clientErr "NoSuchKey") pySetDedup
    "../../etc/passwd" (Or.inr (by decide))

lemma presign_loop_eq_findSome (probe : String → S3Outcome) :
    ∀ l : List String, (∀ c ∈ l, probe c ≠ S3Outcome.headConnErr) →
      presign_loop probe l = .ok (l.findSome? (fun c => outcomeUrl (probe c)))
  | [], _ => rfl
  | k :: rest, h => by
    have hk := h k (List.mem_cons_self k rest)
    have ih := presign_loop_eq_findSome probe rest (fun c hc => h c (List.mem_cons_of_mem k hc))
    cases hp : probe k with
    | ok url => simp [presign_loop, hp, List.findSome?, outcomeUrl]
    | signErr => simp [presign_loop, hp, List.findSome?, outcomeUrl, ih]
    | headClientErr code => simp [presign_loop, hp, List.findSome?, outcomeUrl, ih]
    | headConnErr => exact absurd hp hk

lemma presign_loop_all_signErr (probe : String → S3Outcome)
    (hp : ∀ c, probe c = S3Outcome.signErr) : ∀ l, presign_loop probe l = .ok none
  | [] => rfl
  | k :: rest => by simp [presign_loop, hp k, presign_loop_all_signErr probe hp rest]

lemma presign_loop_all_connErr (probe : String → S3Outcome)
    (hp : ∀ c, probe c = S3Outcome.headConnErr) :
    ∀ l, l ≠ [] → presign_loop probe l = .error ()
  | [], h => absurd rfl h
  | k :: _, _ => by simp [presign_loop, hp k]

lemma convert_items_error_of_mem (f : Option String → Except Unit (Option String))
    (x : Option String) :
    ∀ items, x ∈ items → f x = .error () → convert_items f items = .error ()
  | [], h, _ => absurd h (List.not_mem_nil x)
  | y :: ys, h, hx => by
    rcases List.mem_cons.mp h with rfl | hmem
    · simp only [convert_items, hx]; rfl
    · cases hy : f y with
      | error e => cases e; simp only [convert_items, hy]; rfl
      | ok v =>
        simp only [convert_items, hy,
          convert_items_error_of_mem f x ys hmem hx]
        rfl

lemma convert_items_ok_of (f : Option String → Except Unit (Option String))
    (hf : ∀ x, ∃ y, f x = .ok y) :
    ∀ items, ∃ out, convert_items f items = .ok out ∧ out.length = items.length
  | [] => ⟨[], rfl, rfl⟩
  | x :: xs => by
    obtain ⟨y, hy⟩ := hf x
    obtain ⟨out, hout, hlen⟩ := convert_items_ok_of f hf xs
    exact ⟨y :: out, by simp only [convert_items, hy, hout]; rfl, by simp [hlen]⟩

/-!
Claim C4: candidate ordering and the probing tie-break.
-/

/-- C4 counterexample. The candidate list is de-duplicated with
`list(set(...))` (`audio_proxy.py` 59), whose order is unspecified:
`c4_bad_order` is a legal result of that call for the key `ep1.mp3`
(duplicate-free, same elements), yet probing in that order returns the URL
signed for `audio/ep1.mp3` even though the as-is candidate `ep1.mp3` exists
— the resolver does not probe in the claimed as-is-first priority order. -/
theorem c4_counterexample :
    IsPySetList (s3_keys_to_try (clean_audio_key "ep1.mp3")) c4_bad_order ∧
    probeC4 "ep1.mp3" = S3Outcome.ok "signed:ep1.mp3" ∧
    presign_loop probeC4 c4_bad_order = .ok (some "signed:audio/ep1.mp3") ∧
    "signed:audio/ep1.mp3" ≠ "signed:ep1.mp3" :=
  ⟨by decide, rfl, rfl, by decide⟩

/-- C4 as amended: the candidate list is generated in the stated priority
order (plus a `data/`-joined variant), but `list(set(...))` discards that
order; the resolver then probes the de-duplicated candidates strictly in
their (unspecified) iteration order and, absent connection errors, returns
the presigned URL of the first candidate whose probe succeeds in that order
— not in the documented priority order. -/
theorem c4_amended (probe : String → S3Outcome) (ded : List String → List String) (k : String)
    (h : ∀ c ∈ ded (s3_keys_to_try (clean_audio_key k)), probe c ≠ S3Outcome.headConnErr) :
    generate_presigned_url probe ded k =
      .ok ((ded (s3_keys_to_try (clean_audio_key k))).findSome?
        (fun c => outcomeUrl (probe c))) :=
  presign_loop_eq_findSome probe _ h

theorem c4_amended_witness :
    generate_presigned_url probeC4 (fun _ => c4_bad_order) "ep1.mp3" =
      .ok (((fun (_ : List String) => c4_bad_order)
          (s3_keys_to_try (clean_audio_key "ep1.mp3"))).findSome?
        (fun c => outcomeUrl (probeC4 c))) :=
  c4_amended probeC4 (fun _ => c4_bad_order) "ep1.mp3" (by decide)

/-!
Claim C8: production-mode behaviour when signing fails for every candidate.
-/

/-- C8 counterexample. With the store reporting every candidate's signing
attempt as a `ClientError` (head succeeded, signing failed), the URL builder
does not return "no URL": `config.py` 139-164 falls back to the legacy
API-path URL `audio/ep1.mp3`, so the playlist item keeps a URL instead of
being treated as unresolved. -/
theorem c8_counterexample :
    build_audio_url true "" pySetDedup (fun _ => S3Outcome.signErr) "ep1.mp3" =
      .ok (some "audio/ep1.mp3") ∧
    (Except.ok (some "audio/ep1.mp3") : Except Unit (Option String)) ≠ .ok none ∧
    "audio/ep1.mp3" = fallback_audio_url "" "ep1.mp3" :=
  ⟨rfl, by simp, by decide⟩

lemma build_audio_url_all_signErr (domain : String) (ded : List String → List String)
    (probe : String → S3Outcome) (hp : ∀ c, probe c = S3Outcome.signErr) (k : String)
    (h0 : k ≠ "") (h1 : pyStartsWith "https://" k = false)
    (h2 : pyStartsWith "http://" k = false) :
    build_audio_url true domain ded probe k = .ok (some (fallback_audio_url domain k)) := by
  simp only [build_audio_url, h0, h1, h2, generate_presigned_url,
    presign_loop_all_signErr probe hp, if_false, Bool.or_self, if_neg (fun h => h0 h)]
  rfl

lemma build_audio_url_ok_all_signErr (domain : String) (ded : List String → List String)
    (probe : String → S3Outcome) (hp : ∀ c, probe c = S3Outcome.signErr) (k : String) :
    ∃ v, build_audio_url true domain ded probe k = .ok v := by
  by_cases h0 : k = ""
  · exact ⟨none, by simp [build_audio_url, h0]⟩
  by_cases h1 : (pyStartsWith "https://" k || pyStartsWith "http://" k) = true
  · exact ⟨some k, by simp [build_audio_url, h0, h1]⟩
  · refine ⟨some (fallback_audio_url domain k), ?_⟩
    simp only [Bool.or_eq_true, not_or, Bool.not_eq_true] at h1
    exact build_audio_url_all_signErr domain ded probe hp k h0 h1.1 h1.2

lemma final_check_ok_all_signErr (domain : String) (ded : List String → List String)
    (probe : String → S3Outcome) (hp : ∀ c, probe c = S3Outcome.signErr) (u : Option String) :
    ∃ v, final_check domain ded probe u = .ok v := by
  cases u with
  | none => exact ⟨none, rfl⟩
  | some s =>
    by_cases hin : pyIn "/audio/http" s = true
    · by_cases hp2 : (pySplitStr "/audio/" s).length > 1 ∧
          (pyStartsWith "http://" ((pySplitStr "/audio/" s).getD 1 "") ||
           pyStartsWith "https://" ((pySplitStr "/audio/" s).getD 1 "")) = true
      · obtain ⟨v, hv⟩ := build_audio_url_ok_all_signErr domain ded probe hp
          (pyLast (pySplitStr "/" ((pySplitStr "/audio/" s).getD 1 "")))
        refine ⟨v, ?_⟩
        have hcond : (decide ((pySplitStr "/audio/" s).length > 1) &&
            (pyStartsWith "http://" ((pySplitStr "/audio/" s).getD 1 "") ||
             pyStartsWith "https://" ((pySplitStr "/audio/" s).getD 1 ""))) = true := by
          rw [Bool.and_eq_true]
          exact ⟨decide_eq_true hp2.1, hp2.2⟩
        simp only [final_check, hin, if_true, hcond]
        exact hv
      · refine ⟨some s, ?_⟩
        simp only [final_check, hin, if_true]
        rw [if_neg]
        intro hcon
        rcases Bool.and_eq_true _ _ |>.mp hcon with ⟨hl, hr⟩
        exact hp2 ⟨by simpa using hl, hr⟩
    · exact ⟨some s, by simp [final_check, hin]⟩

lemma transform_item_ok_all_signErr (bucket domain : String) (ded : List String → List String)
    (probe : String → S3Outcome) (hp : ∀ c, probe c = S3Outcome.signErr) (x : Option String) :
    ∃ y, transform_item bucket domain ded probe x = .ok y := by
  cases x with
  | none => exact ⟨none, rfl⟩
  | some u =>
    by_cases h0 : u = ""
    · exact ⟨some "", by simp [transform_item, h0]⟩
    by_cases hs : is_signed_url u = true
    · exact ⟨some u, by simp [transform_item, h0, hs]⟩
    · obtain ⟨v, hv⟩ := build_audio_url_ok_all_signErr domain ded probe hp
        (get_playlist_audio_key bucket u)
      obtain ⟨w, hw⟩ := final_check_ok_all_signErr domain ded probe hp v
      refine ⟨w, ?_⟩
      simp only [transform_item, h0, hs, if_false, Bool.false_eq_true, hv]
      exact hw

/-- C8 as amended: when the store answers every candidate's signing attempt
with a `ClientError` (object reachable, signing fails), `build_audio_url`
does not omit the reference — it returns the legacy API-path fallback URL —
and the playlist request still succeeds with status 200 and one (fallback)
entry per input item; nothing is omitted and nothing aborts. -/
theorem c8_amended (bucket domain : String) (ded : List String → List String)
    (probe : String → S3Outcome) (k : String) (items : List (Option String))
    (hp : ∀ c, probe c = S3Outcome.signErr)
    (h0 : k ≠ "") (h1 : pyStartsWith "https://" k = false)
    (h2 : pyStartsWith "http://" k = false) :
    build_audio_url true domain ded probe k = .ok (some (fallback_audio_url domain k)) ∧
    ∃ out, get_playlist bucket domain ded probe (.withPlaylist items) = ⟨200, some out⟩ ∧
      out.length = items.length := by
  refine ⟨build_audio_url_all_signErr domain ded probe hp k h0 h1 h2, ?_⟩
  obtain ⟨out, hout, hlen⟩ := convert_items_ok_of _
    (transform_item_ok_all_signErr bucket domain ded probe hp) items
  exact ⟨out, by simp [get_playlist, hout], hlen⟩

theorem c8_amended_witness :
    build_audio_url true "" pySetDedup (fun _ => S3Outcome.signErr) "ep1.mp3" =
      .ok (some (fallback_audio_url "" "ep1.mp3")) ∧
    ∃ out, get_playlist "x" "" pySetDedup (fun _ => S3Outcome.signErr)
        (.withPlaylist [some "ep1.mp3", none]) = ⟨200, some out⟩ ∧
      out.length = [some "ep1.mp3", (none : Option String)].length :=
  c8_amended "x" "" pySetDedup (fun _ => S3Outcome.signErr) "ep1.mp3"
    [some "ep1.mp3", none] (fun _ => rfl) (by decide) (by decide) (by decide)

/-!
Claim C3: uniform backing-store outage.
-/

/-- C3 counterexample. When every candidate probe fails with an availability
error reported by the store as a `ClientError` response (here
`ServiceUnavailable`), `generate_presigned_url` conflates it with not-found
(`audio_proxy.py` 78-81), `build_audio_url` falls back to the API-path URL,
and `get_playlist` answers 200 with a fallback-URL playlist — a successful
response, not a retryable failure, and the returned URL is exactly the
fallback URL. -/
theorem c3_counterexample :
    get_playlist "x" "" pySetDedup (fun _ => S3Outcome.headClientErr "ServiceUnavailable")
      (MetaFetch.withPlaylist [some "ep1.mp3"]) = ⟨200, some [some "audio/ep1.mp3"]⟩ ∧
    "audio/ep1.mp3" = fallback_audio_url "" "ep1.mp3" :=
  ⟨by decide, by decide⟩

/-- C3 as amended: only a connectivity failure that is not a `ClientError`
response (e.g. an endpoint connection error, which `except ClientError` at
`audio_proxy.py` 78 does not catch) escapes the conversion, and then the
playlist request for the episode fails as a whole with the retryable status
500 and no playlist — not a successful empty or fallback-URL playlist.
Availability errors delivered as `ClientError` responses do not enjoy this
(see the counterexample). -/
theorem c3_amended (bucket domain : String) (ded : List String → List String)
    (probe : String → S3Outcome) (u : String) (items : List (Option String))
    (hprobe : ∀ c, probe c = S3Outcome.headConnErr)
    (hmem : some u ∈ items)
    (hne : u ≠ "") (hsig : is_signed_url u = false)
    (hk0 : get_playlist_audio_key bucket u ≠ "")
    (hk1 : pyStartsWith "https://" (get_playlist_audio_key bucket u) = false)
    (hk2 : pyStartsWith "http://" (get_playlist_audio_key bucket u) = false)
    (hded : ded (s3_keys_to_try (clean_audio_key (get_playlist_audio_key bucket u))) ≠ []) :
    get_playlist bucket domain ded probe (.withPlaylist items) = ⟨500, none⟩ := by
  have htr : transform_item bucket domain ded probe (some u) = .error () := by
    simp only [transform_item, hne, hsig, build_audio_url, hk0, hk1, hk2,
      generate_presigned_url, presign_loop_all_connErr probe hprobe _ hded,
      if_false, Bool.or_self, Bool.false_eq_true, if_neg (fun h => hne h), if_true]
    rfl
  have hconv : convert_items (transform_item bucket domain ded probe) items = .error () :=
    convert_items_error_of_mem _ _ items hmem htr
  simp [get_playlist, hconv]

theorem c3_amended_witness :
    get_playlist "x" "" pySetDedup (fun _ => S3Outcome.headConnErr)
      (MetaFetch.withPlaylist [some "ep1.mp3"]) = ⟨500, none⟩ :=
  c3_amended "x" "" pySetDedup (fun _ => S3Outcome.headConnErr) "ep1.mp3"
    [some "ep1.mp3"] (fun _ => rfl) (by decide) (by decide) (by decide)
    (by decide) (by decide) (by decide) (by decide)

/-!
General facts about the `split` model, used for claim C6.
-/

lemma nil_isPrefixOf (l : List Char) : ([] : List Char).isPrefixOf l = true := by
  cases l <;> rfl

lemma isPrefixOf_self_append : ∀ (l t : List Char), l.isPrefixOf (l ++ t) = true
  | [], t => nil_isPrefixOf (([] : List Char) ++ t)
  | c :: cs, t => by simp [List.isPrefixOf, isPrefixOf_self_append cs t]

lemma pyInB_append_mid (sep key : List Char) : ∀ pre, pyInB sep (pre ++ sep ++ key) = true := by
  intro pre
  induction pre with
  | nil =>
    cases sep with
    | nil => cases key <;> simp [pyInB, nil_isPrefixOf]
    | cons c cs =>
      have h1 : (c :: cs).isPrefixOf ((c :: cs) ++ key) = true := isPrefixOf_self_append _ _
      simp only [List.nil_append]
      rw [show (c :: cs) ++ key = c :: (cs ++ key) from rfl]
      simp only [pyInB]
      rw [show c :: (cs ++ key) = (c :: cs) ++ key from rfl, h1]
      simp
  | cons c pre' ih =>
    rw [show (c :: pre') ++ sep ++ key = c :: (pre' ++ sep ++ key) from by simp]
    simp only [pyInB]
    rw [ih]
    simp

lemma pySplitFuel_congr (sep : List Char) :
    ∀ f1 f2 (s : List Char), s.length ≤ f1 → s.length ≤ f2 →
      pySplitFuel sep f1 s = pySplitFuel sep f2 s := by
  intro f1
  induction f1 with
  | zero =>
    intro f2 s h1 _
    have hs : s = [] := List.length_eq_zero.mp (Nat.le_zero.mp h1)
    subst hs
    cases f2 <;> rfl
  | succ f ih =>
    intro f2 s h1 h2
    cases s with
    | nil => cases f2 <;> rfl
    | cons c rest =>
      cases f2 with
      | zero => simp at h2
      | succ g =>
        simp only [List.length_cons] at h1 h2
        by_cases hg : sep ≠ [] ∧ sep.isPrefixOf (c :: rest)
        · have hsl : 1 ≤ sep.length := by
            cases sep with
            | nil => exact absurd rfl hg.1
            | cons d ds => simp
          have hd : (List.drop (sep.length - 1) rest).length ≤ f := by
            rw [List.length_drop]; omega
          have hd2 : (List.drop (sep.length - 1) rest).length ≤ g := by
            rw [List.length_drop]; omega
          simp only [pySplitFuel, if_pos hg]
          rw [ih g _ hd hd2]
        · simp only [pySplitFuel, if_neg hg]
          rw [ih g rest (by omega) (by omega)]

lemma pySplitFuel_no_occur (sep : List Char) (_hsep : sep ≠ []) :
    ∀ (s : List Char) fuel, s.length ≤ fuel → pyInB sep s = false →
      pySplitFuel sep fuel s = [s] := by
  intro s
  induction s with
  | nil => intro fuel _ _; cases fuel <;> rfl
  | cons c rest ih =>
    intro fuel hlen hocc
    cases fuel with
    | zero => simp at hlen
    | succ f =>
      have hocc2 : sep.isPrefixOf (c :: rest) = false ∧ pyInB sep rest = false := by
        simpa [pyInB] using hocc
      have hcond : ¬(sep ≠ [] ∧ sep.isPrefixOf (c :: rest) = true) := by
        intro h
        rw [hocc2.1] at h
        exact absurd h.2 (by simp)
      have hrest : rest.length ≤ f := by
        simp only [List.length_cons] at hlen
        omega
      simp only [pySplitFuel, if_neg hcond, ih f hrest hocc2.2]

lemma pySplitFuel_boundary (sep key : List Char) (hsep : sep ≠ []) :
    ∀ (pre : List Char) fuel,
      (pre ++ sep ++ key).length ≤ fuel →
      (∀ t, t ≠ [] → (∃ u, u ++ t = pre) → sep.isPrefixOf (t ++ sep ++ key) = false) →
      pySplitFuel sep fuel (pre ++ sep ++ key) = pre :: listPySplit sep key := by
  intro pre
  induction pre with
  | nil =>
    intro fuel hlen _
    obtain ⟨d, ds, rfl⟩ : ∃ d ds, sep = d :: ds := by
      cases sep with
      | nil => exact absurd rfl hsep
      | cons d ds => exact ⟨d, ds, rfl⟩
    simp only [List.nil_append, List.length_append, List.length_cons] at hlen ⊢
    cases fuel with
    | zero => omega
    | succ f =>
      rw [show (d :: ds) ++ key = d :: (ds ++ key) from rfl]
      simp only [pySplitFuel]
      rw [if_pos ⟨hsep, by
        rw [show d :: (ds ++ key) = (d :: ds) ++ key from rfl]
        exact isPrefixOf_self_append _ _⟩]
      have hdrop : List.drop ((d :: ds).length - 1) (ds ++ key) = key := by
        simp only [List.length_cons, Nat.add_sub_cancel]
        exact List.drop_left ds key
      rw [hdrop]
      congr 1
      apply pySplitFuel_congr
      · omega
      · exact Nat.le_refl _
  | cons c pre' ih =>
    intro fuel hlen hpre
    cases fuel with
    | zero => simp [List.length_append] at hlen
    | succ f =>
      have hnp : sep.isPrefixOf ((c :: pre') ++ sep ++ key) = false :=
        hpre (c :: pre') (by simp) ⟨[], rfl⟩
      rw [show (c :: pre') ++ sep ++ key = c :: (pre' ++ sep ++ key) from by simp]
      simp only [pySplitFuel]
      rw [if_neg (fun h => by
        have h2 := h.2
        rw [show c :: (pre' ++ sep ++ key) = (c :: pre') ++ sep ++ key from by simp, hnp] at h2
        exact absurd h2 (by simp))]
      rw [ih f (by
          simp only [List.length_append, List.length_cons] at hlen ⊢
          omega)
        (fun t ht hu => hpre t ht (by
          obtain ⟨u, hu2⟩ := hu
          exact ⟨c :: u, by rw [← hu2]; rfl⟩))]

/-!
Claim C6: canonical-key extraction from a store-base URL.
-/

/-- C6 counterexample. The extraction takes the part after the LAST
occurrence of `<bucket>.s3.amazonaws.com/` (Python `split(...)[-1]`), so for
the key `x.s3.amazonaws.com/y` — which itself contains the marker — the URL
`https://x.s3.amazonaws.com/x.s3.amazonaws.com/y` normalizes to `y`, not to
the key: the claim's "for every key string" fails. -/
theorem c6_counterexample :
    get_playlist_audio_key "x" "https://x.s3.amazonaws.com/x.s3.amazonaws.com/y" = "y" ∧
    ("y" : String) ≠ "x.s3.amazonaws.com/y" :=
  ⟨by decide, by decide⟩

/-- C6 as amended: for every key that does not itself contain the store-base
marker `<bucket>.s3.amazonaws.com/` as a substring (and any bucket whose
first character does not occur in `https://`, which holds for real bucket
names), the canonical key extracted from `https://<bucket>.s3.amazonaws.com/<key>`
equals `<key>` exactly. -/
theorem c6_amended (bucket key : String)
    (hh : ((bucket ++ ".s3.amazonaws.com/").data.take 1).all
        (fun c => decide (c ∉ "https://".data)) = true)
    (hnk : pyIn (bucket ++ ".s3.amazonaws.com/") key = false) :
    get_playlist_audio_key bucket
      ("https://" ++ (bucket ++ ".s3.amazonaws.com/") ++ key) = key := by
  obtain ⟨m, ms, hm⟩ : ∃ m ms, (bucket ++ ".s3.amazonaws.com/").data = m :: ms := by
    apply List.exists_cons_of_ne_nil
    rw [show (bucket ++ ".s3.amazonaws.com/").data
        = bucket.data ++ ".s3.amazonaws.com/".data from rfl]
    intro h
    exact absurd (List.append_eq_nil.mp h).2 (by decide)
  have hmh : m ∉ "https://".data := by
    rw [hm] at hh
    simpa using hh
  have hsepne : (bucket ++ ".s3.amazonaws.com/").data ≠ [] := by rw [hm]; simp
  have hdata : ("https://" ++ (bucket ++ ".s3.amazonaws.com/") ++ key).data
      = "https://".data ++ (bucket ++ ".s3.amazonaws.com/").data ++ key.data := rfl
  have hb1 : pyStartsWith "/audio/"
      ("https://" ++ (bucket ++ ".s3.amazonaws.com/") ++ key) = false := by
    rw [pyStartsWith, hdata,
      show ("https://".data) = 'h' :: "ttps://".data from by decide,
      show ("/audio/".data) = '/' :: "audio/".data from by decide]
    simp [List.isPrefixOf]
  have hb2 : pyStartsWith "https://"
      ("https://" ++ (bucket ++ ".s3.amazonaws.com/") ++ key) = true := by
    rw [pyStartsWith, hdata, List.append_assoc]
    exact isPrefixOf_self_append _ _
  have hb3 : pyIn (bucket ++ ".s3.amazonaws.com/")
      ("https://" ++ (bucket ++ ".s3.amazonaws.com/") ++ key) = true := by
    rw [pyIn, hdata]
    exact pyInB_append_mid _ _ _
  have hpre : ∀ t, t ≠ [] → (∃ u, u ++ t = "https://".data) →
      ((bucket ++ ".s3.amazonaws.com/").data).isPrefixOf
        (t ++ (bucket ++ ".s3.amazonaws.com/").data ++ key.data) = false := by
    intro t ht hu
    obtain ⟨t0, ts, rfl⟩ := List.exists_cons_of_ne_nil ht
    have ht0 : t0 ∈ "https://".data := by
      obtain ⟨u, hu2⟩ := hu
      have hmem : t0 ∈ u ++ (t0 :: ts) := by simp
      rwa [hu2] at hmem
    have hne : (m == t0) = false := by
      rw [beq_eq_false_iff_ne]
      intro h
      exact hmh (h ▸ ht0)
    rw [hm, show (t0 :: ts) ++ (m :: ms) ++ key.data
        = t0 :: (ts ++ (m :: ms) ++ key.data) from by simp]
    simp [List.isPrefixOf, hne]
  simp only [get_playlist_audio_key, hb1, hb2, hb3, Bool.false_eq_true, if_false,
    Bool.true_or, if_true]
  rw [pySplitStr, hdata, listPySplit,
    pySplitFuel_boundary (bucket ++ ".s3.amazonaws.com/").data key.data hsepne
      "https://".data _ (Nat.le_refl _) hpre,
    show listPySplit (bucket ++ ".s3.amazonaws.com/").data key.data = [key.data] from
      pySplitFuel_no_occur _ hsepne key.data key.data.length (Nat.le_refl _) hnk]
  rfl

theorem c6_amended_witness :
    get_playlist_audio_key "news-audio-files-kenchang198-dev"
      ("https://" ++ ("news-audio-files-kenchang198-dev" ++ ".s3.amazonaws.com/") ++
        "data/audio/ep1.mp3") = "data/audio/ep1.mp3" :=
  c6_amended "news-audio-files-kenchang198-dev" "data/audio/ep1.mp3" (by decide) (by decide)
